import Mathlib

/-!
Shallow embedding of the POCS observatory controller and INDI server
manager, translated from `src/panoptes/observatory.py` and
`src/panoptes/utils/indi/server.py`.

Python exceptions are modelled by the `PyErr` type and fallible Python
code becomes functions into `Except PyErr _`.  Python configuration
values (dicts, lists, numbers, strings, booleans, None) are modelled by
`PVal`.  Interaction with the operating system (process table, file
system, FIFO writes, module resolution) is passed in as explicit
function parameters, so every definition is executable on concrete
inputs.
-/

set_option autoImplicit false

namespace POCS

/-- Exceptions that the embedded code can raise.  The first group are the
panoptes error classes (`error.Error`, `error.NotFound`,
`error.InvalidCommand`, `error.PanError`); the second group are Python
builtins.  `notConnectedError` and `noSchedulerError` appear only in the
specification, never in the code; they are included so that claims
mentioning them can be stated and refuted.  The panoptes error class
hierarchy itself lives outside `src/` (in `panoptes.utils.error`); per
the spec taxonomy the classes named here are distinct catchable classes,
none a superclass of another one named here. -/
inductive PyErr where
  | errorError : String → PyErr
  | notFound : String → PyErr
  | invalidCommand : String → PyErr
  | panError : String → PyErr
  | importError : String → PyErr
  | attributeError : String → PyErr
  | typeError : String → PyErr
  | assertionError : PyErr
  | processLookupError : PyErr
  | notConnectedError : PyErr
  | noSchedulerError : PyErr
deriving DecidableEq

/-- Python values as they occur in the configuration mapping: `None`,
booleans, numbers (modelled as rationals), strings, lists and
string-keyed dicts. -/
inductive PVal where
  | pnone : PVal
  | pbool : Bool → PVal
  | num : Rat → PVal
  | str : String → PVal
  | plist : List PVal → PVal
  | pdict : List (String × PVal) → PVal

/-- Lookup of a key in a Python dict (first binding wins; the embedded
configs never repeat keys). -/
def dictLookup : List (String × PVal) → String → Option PVal
  | [], _ => none
  | (k, v) :: rest, key => if k = key then some v else dictLookup rest key

/-- Python `d.get(key, dflt)`: defined on dicts; on any other value the
attribute access `.get` raises `AttributeError`. -/
def PVal.get (v : PVal) (key : String) (dflt : PVal) : Except PyErr PVal :=
  match v with
  | .pdict d => .ok ((dictLookup d key).getD dflt)
  | _ => .error (.attributeError "get")

/-- Python `v is None`. -/
def PVal.isNone : PVal → Bool
  | .pnone => true
  | _ => false

/-- Python iteration `for x in v`: a list yields its elements, a dict
yields its keys (as strings), a string yields its one-character
substrings; other values raise `TypeError`. -/
def PVal.iter : PVal → Except PyErr (List PVal)
  | .plist l => .ok l
  | .pdict d => .ok (d.map (fun kv => PVal.str kv.1))
  | .str s => .ok (s.toList.map (fun c => PVal.str (String.singleton c)))
  | _ => .error (.typeError "object is not iterable")

/-- Rendering of a value by `str.format`, as used to build module names
and error messages.  Container reprs are never needed by any claim, so
they are abbreviated. -/
def pvStr : PVal → String
  | .pnone => "None"
  | .pbool true => "True"
  | .pbool false => "False"
  | .num q => toString q
  | .str s => s
  | .plist _ => "<list>"
  | .pdict _ => "<dict>"

/-- The configuration mapping handed to the observatory: a Python dict
with string keys. -/
abbrev Config := List (String × PVal)

/-- Python `key in config`. -/
def cfgHasKey (c : Config) (key : String) : Bool :=
  (dictLookup c key).isSome

/-- Python `config.get(key)` (default `None`). -/
def cfgGet (c : Config) (key : String) : PVal :=
  (dictLookup c key).getD .pnone

/-! ### `src/panoptes/utils/indi/server.py` — PanIndiServer -/

/-- State of the indiserver child process in the OS process table:
still running, exited but not yet reaped (zombie), or reaped (no longer
present in the table). -/
inductive ProcState where
  | running : ProcState
  | zombie : ProcState
  | reaped : ProcState
deriving DecidableEq

/-- Python `os.getpgid(pid)`: succeeds (returning the positive process
group id, so the result is always truthy) while the pid is in the
process table, including zombies; raises `ProcessLookupError` once the
process has been reaped. -/
def os_getpgid : ProcState → Except PyErr Nat
  | .reaped => .error .processLookupError
  | _ => .ok 1

/-- Python `Popen.terminate()` (current CPython: `send_signal` first
calls `poll`, which reaps an exited child and records its return code,
and only sends SIGTERM when the return code is still unset).  A running
process receives SIGTERM and, in this model, exits promptly, becoming a
zombie; a zombie is reaped by the poll and receives no signal; a reaped
process receives no signal. -/
def popen_terminate : ProcState → ProcState
  | .running => .zombie
  | .zombie => .reaped
  | .reaped => .reaped

/-- State observed by `PanIndiServer.stop`: the child process and
whether the FIFO file currently exists on disk. -/
structure SrvState where
  procState : ProcState
  fifoExists : Bool
deriving DecidableEq

/-- Embedding of `PanIndiServer.stop` (server.py lines 90-97):
`if os.getpgid(self._proc.pid): self._proc.terminate()` followed by
`if os.path.exists(self._fifo): os.unlink(self._fifo)`.  A raise from
`os.getpgid` propagates; on success the returned pgid is positive and
therefore truthy, so `terminate` always runs. -/
def stop (s : SrvState) : Except PyErr SrvState :=
  match os_getpgid s.procState with
  | .error e => .error e
  | .ok pgid =>
    let p := if pgid ≠ 0 then popen_terminate s.procState else s.procState
    .ok { procState := p, fifoExists := false }

/-- The attributes of a constructed `PanIndiServer` used by the driver
commands: `self._proc.pid`, `self._fifo`, and the cached `_connected`
flag. -/
structure Mgr where
  pid : Nat
  fifo : String
  connected : Bool
deriving DecidableEq

/-- Embedding of `PanIndiServer._write_to_server` (lines 141-155).  The
two `assert` statements raise `AssertionError` when `self._proc.pid` or
`self._fifo` is falsy (the `error.InvalidCommand` object in the assert
is only the assertion message, it is not the exception raised).  The
command tokens are joined by single spaces and written to the FIFO in
one write; `w` tells whether that write completes, and a failed write
raises `error.PanError`.  The result carries the string written. -/
def _write_to_server (w : String → Bool) (m : Mgr) (cmd : List String) :
    Except PyErr String :=
  if m.pid = 0 then .error .assertionError
  else if m.fifo = "" then .error .assertionError
  else
    let str_cmd := String.intercalate " " cmd
    if w str_cmd then .ok str_cmd
    else .error (.panError "Problem writing to FIFO")

/-- Command tokens built by `PanIndiServer.load_driver` (lines 117-126):
`cmd = ['start', driver]`, then only when `name` is truthy
`cmd.extend(['-n', '"name"', '\n'])`. -/
def cmd_tokens_load (name driver : String) : List String :=
  if name ≠ "" then ["start", driver, "-n", "\"" ++ name ++ "\"", "\n"]
  else ["start", driver]

/-- The single line written to the FIFO for a load command. -/
def cmd_str_load (name driver : String) : String :=
  String.intercalate " " (cmd_tokens_load name driver)

/-- Embedding of `PanIndiServer.load_driver` (lines 117-126): builds the
token list and hands it to `_write_to_server`.  Note that the source
performs no connectedness check of any kind. -/
def load_driver (w : String → Bool) (m : Mgr) (name driver : String) :
    Except PyErr String :=
  _write_to_server w m (cmd_tokens_load name driver)

/-- Embedding of `PanIndiServer.load_drivers` (lines 99-111): iterates
the device mapping (Python dict iteration order = insertion order,
modelled as a list of pairs) and calls `load_driver` on each entry;
only `error.InvalidCommand` is caught and skipped, every other
exception propagates immediately. -/
def load_drivers (w : String → Bool) (m : Mgr) :
    List (String × String) → Except PyErr Unit
  | [] => .ok ()
  | (n, d) :: rest =>
    match load_driver w m n d with
    | .error (.invalidCommand _) => load_drivers w m rest
    | .error e => .error e
    | .ok _ => load_drivers w m rest

/-- Python `os.path.exists(p)`: total for a string argument, never
raises; `fs` is the current file-system contents. -/
def os_path_exists (fs : String → Bool) (p : String) : Except PyErr Bool :=
  .ok (fs p)

/-- Embedding of the `PanIndiServer.is_connected` property (lines
41-52): sets `self._connected` from `os.path.exists('/proc/<pid>')`
inside a `try`; on an exception it logs and returns the previous cached
flag.  The body cannot in fact raise for a constructed manager, so the
handler is dead, but it is modelled. -/
def is_connected (fs : String → Bool) (m : Mgr) : Except PyErr Bool :=
  match os_path_exists fs ("/proc/" ++ toString m.pid) with
  | .ok b => .ok b
  | .error _ => .ok m.connected

/-- Embedding of `PanIndiServer.start` (lines 58-88).  `fifoOnDisk`
tells whether the FIFO already exists (then it is reused with a
warning), `mkfifoOk` whether `os.mkfifo` succeeds, `popenOk` whether
`subprocess.Popen` succeeds.  A mkfifo failure is re-raised as
`error.InvalidCommand`.  A Popen failure enters the handler at line 86,
whose log message reads `self.host` — an attribute that does not exist —
so an `AttributeError` escapes from inside that handler.  On success
the OS-assigned pid of the child is returned (a concrete positive
number; its value is not observable by any claim). -/
def start (fifoOnDisk mkfifoOk popenOk : Bool) : Except PyErr Nat :=
  if ¬ fifoOnDisk ∧ ¬ mkfifoOk then
    .error (.invalidCommand "Cannot open fifo")
  else if popenOk then .ok 42
  else .error (.attributeError "host")

/-- Embedding of `PanIndiServer.__init__` (lines 20-34).  `which` is the
result of `shutil.which('indiserver')`; `None` fails the assert.  The
call `self._proc = self.start()` sits in a `try` whose handler only
logs; but the debug log on line 34 then formats `self._proc`, which was
never assigned when `start` raised, so an `AttributeError` escapes the
constructor in exactly the case the handler meant to survive.  On
success the manager holds the pid, the fifo path, and
`self._connected = False`. -/
def pan_indi_server_init (which : Option String) (fifoPath : String)
    (fifoOnDisk mkfifoOk popenOk : Bool) : Except PyErr Mgr :=
  match which with
  | none => .error .assertionError
  | some _ =>
    match start fifoOnDisk mkfifoOk popenOk with
    | .ok pid => .ok { pid := pid, fifo := fifoPath, connected := false }
    | .error _ => .error (.attributeError "_proc")

/-! ### `src/panoptes/observatory.py` — Observatory -/

/-- Result of multiplying a config value by an astropy unit
(`value * u.degree` and similar).  Numbers give a quantity whose
magnitude is the number (the unit tag plays no role in any claim);
Python booleans are ints, so `True * u.degree` is the quantity 1; `None`
and the other values raise `TypeError`. -/
def times_unit (v : PVal) : Except PyErr Rat :=
  match v with
  | .num q => .ok q
  | .pbool b => .ok (if b then 1 else 0)
  | _ => .error (.typeError "unsupported operand")

/-- The `self.location` dict assembled by `Observatory._setup_location`
(lines 93-101).  Quantities carry only their magnitudes. -/
structure Location where
  name : PVal
  latitude : Rat
  longitude : Rat
  elevation : Rat
  timezone : PVal
  pressure : Rat
  horizon : Rat

/-- Embedding of `Observatory._setup_location` (lines 62-104), in the
source's evaluation order: presence test `'location' in self.config`,
then the per-field reads at lines 82-91 (name with default, latitude
and longitude with default `None` then multiplied by a unit, timezone
read bare, pressure/elevation/horizon with numeric defaults then
multiplied by a unit).  An absent `location` key raises
`error.Error('Bad site information')`. -/
def _setup_location (config : Config) : Except PyErr Location := do
  if cfgHasKey config "location" then
    let config_site := cfgGet config "location"
    let name ← config_site.get "name" (.str "Nameless Location")
    let latitude ← times_unit (← config_site.get "latitude" .pnone)
    let longitude ← times_unit (← config_site.get "longitude" .pnone)
    let timezone ← config_site.get "timezone" .pnone
    let pressure ← times_unit (← config_site.get "pressure" (.num (68 / 100)))
    let elevation ← times_unit (← config_site.get "elevation" (.num 0))
    let horizon ← times_unit (← config_site.get "horizon" (.num 0))
    .ok { name := name, latitude := latitude, longitude := longitude,
          elevation := elevation, timezone := timezone,
          pressure := pressure, horizon := horizon }
  else
    .error (.errorError "Bad site information")

/-- Modelled from the spec: dynamic model-name resolution
(`load_module` lives in `panoptes.utils`, outside `src/`): resolving a
module name either succeeds or raises `ImportError`; `r` is the set of
module names importable on the host. -/
def load_module (r : String → Bool) (name : String) : Except PyErr Unit :=
  if r name then .ok () else .error (.importError name)

/-- Handle for a constructed mount subsystem (the concrete `Mount`
class is an external collaborator; only its module name is recorded). -/
structure Mount where
  moduleName : String

/-- Embedding of `Observatory._create_mount` (lines 106-137) as called
from `__init__` (no explicit `mount_info`, so it is read from the
config): `mount_info.get('model')` (an `AttributeError` if the value is
not a dict), then `load_module('panoptes.mount.<model>')` with no
exception handler, then the external `module.Mount(...)` construction. -/
def _create_mount (r : String → Bool) (config : Config) :
    Except PyErr Mount := do
  let mount_info := cfgGet config "mount"
  let model ← mount_info.get "model" .pnone
  let _ ← load_module r ("panoptes.mount." ++ pvStr model)
  .ok { moduleName := "panoptes.mount." ++ pvStr model }

/-- Handle for a constructed camera subsystem: the resolved module name
and the per-camera config passed to the external `module.Camera`. -/
structure Camera where
  moduleName : String
  cfg : PVal

/-- The `for camera in camera_info` loop of `Observatory._create_cameras`
(lines 164-175): for each entry read `camera.get('model')`, resolve
`panoptes.camera.<model>`, and append the camera handle; an
`ImportError` is caught and re-raised as `error.NotFound(model)`, which
propagates out of the loop; any other exception propagates unchanged. -/
def create_cameras_loop (r : String → Bool) :
    List PVal → Except PyErr (List Camera)
  | [] => .ok []
  | cam :: rest =>
    match cam.get "model" .pnone with
    | .error e => .error e
    | .ok model =>
      match load_module r ("panoptes.camera." ++ pvStr model) with
      | .error (.importError _) => .error (.notFound (pvStr model))
      | .error e => .error e
      | .ok _ =>
        match create_cameras_loop r rest with
        | .error e => .error e
        | .ok cams =>
          .ok ({ moduleName := "panoptes.camera." ++ pvStr model,
                 cfg := cam } :: cams)

/-- Embedding of `Observatory._create_cameras` (lines 139-178).  The
`camera_info` parameter is overwritten on line 155 from
`self.config.get('cameras')` before it is ever read; when that is
`None` the code falls back to `self.config.get('mount')` (line 157) and
iterates whatever value that is. -/
def _create_cameras (r : String → Bool) (config : Config)
    (camera_info : Option PVal) : Except PyErr (List Camera) :=
  let ci := cfgGet config "cameras"
  let ci := if ci.isNone then cfgGet config "mount" else ci
  match ci.iter with
  | .error e => .error e
  | .ok items => create_cameras_loop r items

/-- Handle for the external `Scheduler` collaborator, recording the
target-list path it was constructed with. -/
structure Scheduler where
  target_list_file : String

/-- Result of `os.path.join(base_dir, 'resources/conf_files/targets/',
targets_file)` (lines 184-188) for string arguments; the middle
component carries its own trailing slash, and the sample configs use a
slash-free base and a relative file name. -/
def join_targets_path (b t : String) : String :=
  b ++ "/resources/conf_files/targets/" ++ t

/-- Embedding of `Observatory._create_scheduler` (lines 180-196):
builds the targets path (a `TypeError` from `os.path.join` when
`base_dir` or `targets_file` is not a string), then constructs the
scheduler only when the path exists on disk; otherwise it only logs a
warning and `self.scheduler` stays `None`. -/
def _create_scheduler (fs : String → Bool) (config : Config) :
    Except PyErr (Option Scheduler) :=
  match cfgGet config "base_dir", cfgGet config "targets_file" with
  | .str b, .str t =>
    let p := join_targets_path b t
    if fs p then .ok (some { target_list_file := p }) else .ok none
  | _, _ => .error (.typeError "join expects str")

/-- The attributes of a constructed `Observatory`. -/
structure Obs where
  location : Location
  mount : Mount
  cameras : List Camera
  scheduler : Option Scheduler

/-- Embedding of `Observatory.__init__` (lines 22-43) for a provided
config: `_setup_location`, `_create_mount`, `_create_cameras`,
`_create_scheduler` in order, each exception propagating out of the
constructor. -/
def observatory_init (r : String → Bool) (fs : String → Bool)
    (config : Config) : Except PyErr Obs := do
  let loc ← _setup_location config
  let mount ← _create_mount r config
  let cams ← _create_cameras r config none
  let sched ← _create_scheduler fs config
  .ok { location := loc, mount := mount, cameras := cams,
        scheduler := sched }

/-- Embedding of `Observatory.get_target` (lines 49-56):
`self.scheduler.get_target(self)`.  When `self.scheduler` is `None` the
attribute access raises `AttributeError('get_target')`; otherwise the
external scheduler `ext` produces the target. -/
def get_target (ext : Scheduler → String) (o : Obs) : Except PyErr String :=
  match o.scheduler with
  | none => .error (.attributeError "get_target")
  | some s => .ok (ext s)

/-! ### Concrete fixtures used by the witnesses and counterexamples -/

/-- Host on which the mount model `ieq30pro` and the camera model
`simulator` resolve and nothing else does. -/
def camResolvable : String → Bool := fun s =>
  s == "panoptes.mount.ieq30pro" || s == "panoptes.camera.simulator"

/-- Configuration of the camera partial-failure scenario from the spec:
`cameras = [simulator, bogus]`. -/
def cfgScenario : Config :=
  [("location", .pdict [("name", .str "Mauna Loa"), ("latitude", .num 19),
      ("longitude", .num 20), ("timezone", .str "US/Hawaii")]),
   ("mount", .pdict [("model", .str "ieq30pro")]),
   ("cameras", .plist [.pdict [("model", .str "simulator")],
                       .pdict [("model", .str "bogus")]]),
   ("base_dir", .str "/var/panoptes"),
   ("targets_file", .str "default_targets.yaml")]

/-- Like `cfgScenario` but with only the resolvable camera. -/
def cfgOk : Config :=
  [("location", .pdict [("name", .str "Mauna Loa"), ("latitude", .num 19),
      ("longitude", .num 20), ("timezone", .str "US/Hawaii")]),
   ("mount", .pdict [("model", .str "ieq30pro")]),
   ("cameras", .plist [.pdict [("model", .str "simulator")]]),
   ("base_dir", .str "/var/panoptes"),
   ("targets_file", .str "default_targets.yaml")]

/-- Configuration whose `location` dict lacks a `latitude` key. -/
def cfgLat : Config :=
  [("location", .pdict [("name", .str "Mauna Loa"), ("longitude", .num 20),
      ("timezone", .str "US/Hawaii")])]

/-- Configuration whose `location` dict lacks a `timezone` key. -/
def cfgNoTz : Config :=
  [("location", .pdict [("latitude", .num 19), ("longitude", .num 20)])]

/-- Configuration with a `mount` entry and no `cameras` entry. -/
def cfgMountOnly : Config :=
  [("mount", .pdict [("model", .str "ieq30pro")])]

/-- A concrete location record. -/
def locFix : Location :=
  { name := .str "Mauna Loa", latitude := 19, longitude := 20,
    elevation := 0, timezone := .str "US/Hawaii", pressure := 68 / 100,
    horizon := 0 }

/-- A constructed observatory whose targets file was missing, so no
scheduler was built. -/
def obsNoSched : Obs :=
  { location := locFix, mount := { moduleName := "panoptes.mount.ieq30pro" },
    cameras := [], scheduler := none }

/-- A constructed manager whose server process is running. -/
def mgrUp : Mgr := { pid := 123, fifo := "/tmp/pan_indiFIFO", connected := true }

/-- A constructed manager whose server process has died: not connected. -/
def mgrDown : Mgr := { pid := 123, fifo := "/tmp/pan_indiFIFO", connected := false }

/-! ### Helper lemmas -/

/-- A camera config entry whose model resolves on host `r`. -/
def GoodEntry (r : String → Bool) (c : PVal) : Prop :=
  ∃ m, c.get "model" .pnone = .ok m ∧ r ("panoptes.camera." ++ pvStr m) = true

/-- Inside the camera loop, the first entry whose model does not resolve
turns into `error.NotFound` and aborts the whole loop, whatever follows
it. -/
theorem create_cameras_loop_append_err (r : String → Bool) (m : PVal)
    (bad : PVal) (rest : List PVal)
    (hbad : bad.get "model" .pnone = .ok m)
    (hr : r ("panoptes.camera." ++ pvStr m) = false) :
    ∀ pre : List PVal, (∀ c ∈ pre, GoodEntry r c) →
      create_cameras_loop r (pre ++ bad :: rest) =
        .error (.notFound (pvStr m)) := by
  intro pre
  induction pre with
  | nil =>
    intro _
    simp [create_cameras_loop, hbad, load_module, hr]
  | cons c pre ih =>
    intro h
    obtain ⟨mc, hmc, hrc⟩ := h c (List.mem_cons_self c pre)
    have ih' := ih (fun x hx => h x (List.mem_cons_of_mem c hx))
    simp [create_cameras_loop, hmc, load_module, hrc, ih']

/-! ### Claims -/

/-- C1 (counterexample): in the spec scenario
`cameras = [simulator, bogus]` on a host resolving only the simulator,
camera creation — and with it the whole observatory construction — fails
with `error.NotFound("bogus")` instead of succeeding with one camera
handle. -/
theorem c1_counterexample :
    _create_cameras camResolvable cfgScenario none =
      .error (.notFound "bogus") ∧
    observatory_init camResolvable (fun _ => false) cfgScenario =
      .error (.notFound "bogus") :=
  ⟨rfl, rfl⟩

/-- C1 (amended): a resolution failure for a camera entry is caught and
converted to the structured `error.NotFound` for that entry, but it is
re-raised out of the loop: the first unresolvable entry aborts the whole
camera creation (and hence observatory construction), and no handle is
retained for the resolvable entries. -/
theorem c1_first_bad_camera_aborts (r : String → Bool) (cfg : Config)
    (x : Option PVal) (pre : List PVal) (bad : PVal) (rest : List PVal)
    (m : PVal)
    (hpre : ∀ c ∈ pre, GoodEntry r c)
    (hbad : bad.get "model" .pnone = .ok m)
    (hr : r ("panoptes.camera." ++ pvStr m) = false)
    (hcfg : cfgGet cfg "cameras" = .plist (pre ++ bad :: rest)) :
    _create_cameras r cfg x = .error (.notFound (pvStr m)) := by
  simp [_create_cameras, hcfg, PVal.isNone, PVal.iter,
    create_cameras_loop_append_err r m bad rest hbad hr pre hpre]

/-- C1 (witness): the amended theorem applied to the concrete scenario
config. -/
theorem c1_witness :
    _create_cameras camResolvable cfgScenario (some (.str "ignored")) =
      .error (.notFound "bogus") :=
  c1_first_bad_camera_aborts camResolvable cfgScenario (some (.str "ignored"))
    [.pdict [("model", .str "simulator")]] (.pdict [("model", .str "bogus")])
    [] (.str "bogus")
    (by
      intro c hc
      simp only [List.mem_singleton] at hc
      subst hc
      exact ⟨.str "simulator", rfl, rfl⟩)
    rfl rfl rfl

/-- C2 (counterexample): on an observatory without a scheduler,
`get_target` raises the unstructured builtin
`AttributeError('get_target')` (the attribute access on `None`), which
is not the structured `NoSchedulerError` the claim requires. -/
theorem c2_counterexample :
    get_target (fun _ => "andromeda") obsNoSched =
      .error (.attributeError "get_target") ∧
    PyErr.attributeError "get_target" ≠ PyErr.noSchedulerError :=
  ⟨rfl, by decide⟩

/-- C2 (amended): when the targets path does not exist,
`_create_scheduler` returns without raising and leaves no scheduler, and
observatory construction completes; but a subsequent `get_target` fails
with the unstructured builtin `AttributeError` from calling a method on
`None`, not with a structured `NoSchedulerError`. -/
theorem c2_get_target_attribute_error :
    (∀ (fs : String → Bool) (c : Config) (b t : String),
        cfgGet c "base_dir" = .str b → cfgGet c "targets_file" = .str t →
        fs (join_targets_path b t) = false →
        _create_scheduler fs c = .ok none) ∧
    (∀ (ext : Scheduler → String) (o : Obs), o.scheduler = none →
        get_target ext o = .error (.attributeError "get_target")) ∧
    (∃ o, observatory_init camResolvable (fun _ => false) cfgOk = .ok o ∧
        o.scheduler = none ∧
        get_target (fun _ => "andromeda") o =
          .error (.attributeError "get_target")) := by
  refine ⟨?_, ?_, ⟨_, rfl, rfl, rfl⟩⟩
  · intro fs c b t hb ht hfs
    simp [_create_scheduler, hb, ht, hfs]
  · intro ext o h
    simp [get_target, h]

/-- C2 (witness): the amended theorem applied to the scenario config
with an empty file system. -/
theorem c2_witness :
    _create_scheduler (fun _ => false) cfgScenario = .ok none :=
  c2_get_target_attribute_error.1 (fun _ => false) cfgScenario
    "/var/panoptes" "default_targets.yaml" rfl rfl rfl

/-- C3 (counterexample): a manager whose server process exited on its
own (an unreaped zombie): the first `stop` succeeds — `terminate`'s poll
reaps the child — and the second `stop` raises `ProcessLookupError`
from `os.getpgid`, so `stop` is not idempotent. -/
theorem c3_counterexample :
    stop { procState := .zombie, fifoExists := true } =
      .ok { procState := .reaped, fifoExists := false } ∧
    stop { procState := .reaped, fifoExists := false } =
      .error .processLookupError :=
  ⟨rfl, rfl⟩

/-- C3 (amended): provided the server process is still running when the
first `stop` is issued, calling `stop` twice in succession never raises
and afterwards the pipe file no longer exists; when the process has
already exited before the first call, the second call raises
`ProcessLookupError`. -/
theorem c3_stop_twice_running :
    ∀ fifoOnDisk : Bool,
      (stop { procState := .running, fifoExists := fifoOnDisk }).bind stop =
        .ok { procState := .reaped, fifoExists := false } := by
  intro fifoOnDisk
  rfl

/-- C4 (counterexample): on a manager that is not connected (the server
process is dead), `load_driver` performs no connectedness check: with a
functioning FIFO write it succeeds outright, and with a failing write it
raises the generic `error.PanError`; in neither case is a
`NotConnectedError` produced (no such error exists in the code). -/
theorem c4_counterexample :
    is_connected (fun _ => false) mgrDown = .ok false ∧
    load_driver (fun _ => true) mgrDown "cam0" "indi_simulator_ccd" =
      .ok "start indi_simulator_ccd -n \"cam0\" \n" ∧
    load_driver (fun _ => false) mgrDown "cam0" "indi_simulator_ccd" =
      .error (.panError "Problem writing to FIFO") :=
  ⟨rfl, rfl, rfl⟩

/-- C4 (amended): `load_driver` never consults the connection state —
its result is independent of the manager's connected flag — and when
the FIFO write fails it raises `error.PanError`, not a
`NotConnectedError`; the code maintains no driver registry, so there is
no registry to mutate. -/
theorem c4_no_connectivity_check (w : String → Bool) (pid : Nat)
    (fifo : String) (c₁ c₂ : Bool) (name driver : String) :
    load_driver w ⟨pid, fifo, c₁⟩ name driver =
      load_driver w ⟨pid, fifo, c₂⟩ name driver ∧
    (pid ≠ 0 → fifo ≠ "" → w (cmd_str_load name driver) = false →
      load_driver w ⟨pid, fifo, c₁⟩ name driver =
        .error (.panError "Problem writing to FIFO")) := by
  refine ⟨rfl, ?_⟩
  intro h1 h2 h3
  simp [cmd_str_load] at h3
  simp [load_driver, _write_to_server, h1, h2, h3]

/-- C4 (witness): the amended theorem applied to a concrete unconnected
manager with a failing write. -/
theorem c4_witness :
    load_driver (fun _ => false) ⟨123, "/tmp/pan_indiFIFO", false⟩ "cam0"
      "indi_simulator_ccd" = .error (.panError "Problem writing to FIFO") :=
  (c4_no_connectivity_check (fun _ => false) 123 "/tmp/pan_indiFIFO"
    false true "cam0" "indi_simulator_ccd").2
    (by decide) (by decide) rfl

/-- C5 (counterexample): a load command with no device name supplied
writes `start indi_simulator_ccd` with no trailing newline at all — the
newline token is appended only inside the `if name:` branch — so the
trailing newline does not terminate every load command. -/
theorem c5_counterexample :
    load_driver (fun _ => true) mgrUp "" "indi_simulator_ccd" =
      .ok "start indi_simulator_ccd" ∧
    (cmd_tokens_load "" "indi_simulator_ccd").getLast? =
      some "indi_simulator_ccd" :=
  ⟨rfl, rfl⟩

/-- C5 (amended): for a connected load with a nonempty device name, the
single write is exactly the space-joined token sequence
`start <driverId> -n "<deviceName>" \n` whose last token is the
newline; in particular `load_driver("cam0", "indi_simulator_ccd")`
writes exactly `start indi_simulator_ccd -n "cam0" \n`; but a load with
no device name is written as `start <driverId>` with no trailing
newline. -/
theorem c5_load_command_bytes (w : String → Bool) (pid : Nat)
    (fifo : String) (c : Bool) (name driver : String)
    (hpid : pid ≠ 0) (hfifo : fifo ≠ "") (hname : name ≠ "")
    (hw : w (cmd_str_load name driver) = true) :
    load_driver w ⟨pid, fifo, c⟩ name driver =
      .ok (cmd_str_load name driver) ∧
    cmd_str_load name driver =
      "start " ++ driver ++ " -n \"" ++ name ++ "\" \n" ∧
    (cmd_tokens_load name driver).getLast? = some "\n" ∧
    load_driver (fun _ => true) mgrUp "cam0" "indi_simulator_ccd" =
      .ok "start indi_simulator_ccd -n \"cam0\" \n" := by
  refine ⟨?_, ?_, ?_, rfl⟩
  · simp only [cmd_str_load] at hw
    simp [load_driver, _write_to_server, hpid, hfifo, hw, cmd_str_load]
  · apply String.ext
    simp [cmd_str_load, cmd_tokens_load, hname, String.intercalate,
      String.intercalate.go, String.data_append]
  · simp [cmd_tokens_load, hname]

/-- C5 (witness): the amended theorem applied to the spec's concrete
scenario `load_driver("cam0", "indi_simulator_ccd")`. -/
theorem c5_witness :
    load_driver (fun _ => true) mgrUp "cam0" "indi_simulator_ccd" =
      .ok (cmd_str_load "cam0" "indi_simulator_ccd") :=
  (c5_load_command_bytes (fun _ => true) 123 "/tmp/pan_indiFIFO" true
    "cam0" "indi_simulator_ccd" (by decide) (by decide) (by decide) rfl).1

/-- C6 (counterexample): with two devices where the first device's FIFO
write fails, `load_drivers` propagates the `error.PanError` instead of
completing the batch: the `except error.InvalidCommand` handler does not
catch a transport failure. -/
theorem c6_counterexample :
    load_drivers (fun s => !(s == cmd_str_load "a" "da")) mgrUp
      [("a", "da"), ("b", "db")] =
      .error (.panError "Problem writing to FIFO") :=
  rfl

/-- C6 (amended): `load_drivers` catches only `error.InvalidCommand`;
a transport/write failure surfaces from `_write_to_server` as
`error.PanError`, which propagates out of the batch immediately, and
`load_driver` can in fact never raise `error.InvalidCommand`, so the
handler is dead and any per-device failure aborts the remaining
devices. -/
theorem c6_transport_failure_aborts_batch (w : String → Bool) (m : Mgr)
    (n d : String) (rest : List (String × String))
    (hpid : m.pid ≠ 0) (hfifo : m.fifo ≠ "")
    (hw : w (cmd_str_load n d) = false) :
    load_drivers w m ((n, d) :: rest) =
      .error (.panError "Problem writing to FIFO") ∧
    (∀ (w' : String → Bool) (m' : Mgr) (n' d' s : String),
      load_driver w' m' n' d' ≠ .error (.invalidCommand s)) := by
  constructor
  · simp [cmd_str_load] at hw
    simp [load_drivers, load_driver, _write_to_server, hpid, hfifo, hw]
  · intro w' m' n' d' s
    simp only [load_driver, _write_to_server]
    split
    · simp
    · split
      · simp
      · split <;> simp

/-- C6 (witness): the amended theorem applied to a concrete batch whose
first write fails. -/
theorem c6_witness :
    load_drivers (fun _ => false) mgrUp [("cam0", "indi_simulator_ccd")] =
      .error (.panError "Problem writing to FIFO") :=
  (c6_transport_failure_aborts_batch (fun _ => false) mgrUp "cam0"
    "indi_simulator_ccd" [] (by decide) (by decide) rfl).1

/-- C7: evaluation of `PanIndiServer.__init__` at the failing inputs.
A pipe-creation failure (first conjunct: FIFO absent, `os.mkfifo`
fails) and a process-creation failure (second conjunct: `Popen` fails)
both escape the constructor as `AttributeError` — the handler catches
and logs the `start` failure, but the following debug log reads the
never-assigned `self._proc` — so construction does not survive in a
"not connected" state; only the missing-executable case (third
conjunct) fails with the assert as the claim says. -/
theorem c7_init_attribute_error :
    pan_indi_server_init (some "/usr/bin/indiserver") "/tmp/pan_indiFIFO"
      false false true = .error (.attributeError "_proc") ∧
    pan_indi_server_init (some "/usr/bin/indiserver") "/tmp/pan_indiFIFO"
      false true false = .error (.attributeError "_proc") ∧
    pan_indi_server_init none "/tmp/pan_indiFIFO" false true true =
      .error .assertionError :=
  ⟨rfl, rfl, rfl⟩

/-- C8: `is_connected` is total: on every constructed manager and every
file-system state it returns the boolean `os.path.exists('/proc/<pid>')`
and never raises — including for a server process that has already died,
where the `/proc` entry is gone and the result is `false`. -/
theorem c8_is_connected_total (fs : String → Bool) (m : Mgr) :
    is_connected fs m = .ok (fs ("/proc/" ++ toString m.pid)) ∧
    ∀ e : PyErr, is_connected fs m ≠ .error e := by
  constructor
  · rfl
  · intro e
    simp [is_connected, os_path_exists]

/-- C9 (counterexample): a config whose `location` dict lacks the
`latitude` key: `None * u.degree` raises the unstructured builtin
`TypeError`, not the structured `error.Error('Bad site information')`. -/
theorem c9_counterexample :
    _setup_location cfgLat = .error (.typeError "unsupported operand") ∧
    PyErr.typeError "unsupported operand" ≠
      PyErr.errorError "Bad site information" :=
  ⟨rfl, by decide⟩

/-- C9 (amended): only a wholly absent `location` key fails with the
structured `error.Error('Bad site information')`; a present `location`
dict with a missing latitude (or longitude) fails with the unstructured
builtin `TypeError` from `None * u.degree`; and a missing timezone is
accepted silently (`timezone` is read without validation and stays
`None`). -/
theorem c9_location_errors :
    (∀ c : Config, cfgHasKey c "location" = false →
        _setup_location c = .error (.errorError "Bad site information")) ∧
    _setup_location cfgLat = .error (.typeError "unsupported operand") ∧
    (∃ loc, _setup_location cfgNoTz = .ok loc ∧ loc.timezone = .pnone) := by
  refine ⟨?_, rfl, ⟨_, rfl, rfl⟩⟩
  intro c h
  simp [_setup_location, h]

/-- C9 (witness): the amended theorem applied to a config with no
`location` key at all. -/
theorem c9_witness :
    _setup_location cfgMountOnly =
      .error (.errorError "Bad site information") :=
  c9_location_errors.1 cfgMountOnly rfl

/-- C10: the `camera_info` parameter of `_create_cameras` is overwritten
from the configuration before it is ever read, so the result never
depends on it; and when the config has no `cameras` entry the code
iterates the `mount` entry in its place. -/
theorem c10_camera_info_ignored (r : String → Bool) (c : Config)
    (a b : Option PVal) :
    _create_cameras r c a = _create_cameras r c b ∧
    ((cfgGet c "cameras").isNone = true →
      _create_cameras r c a =
        match (cfgGet c "mount").iter with
        | .error e => .error e
        | .ok items => create_cameras_loop r items) := by
  refine ⟨rfl, ?_⟩
  intro h
  simp [_create_cameras, h]

/-- C10 (witness): the theorem applied to a config with a `mount` entry
and no `cameras` entry, with two different explicit arguments. -/
theorem c10_witness :
    _create_cameras camResolvable cfgMountOnly (some (.plist [])) =
      match (cfgGet cfgMountOnly "mount").iter with
      | .error e => .error e
      | .ok items => create_cameras_loop camResolvable items :=
  (c10_camera_info_ignored camResolvable cfgMountOnly (some (.plist []))
    none).2 rfl

end POCS
